import Mathlib

/-!
Verification of the btrfs graphdriver (package `btrfs`): a shallow embedding
of the driver's state, its quota subsystem, and the `Create` / `Remove` /
`Get` operations, together with theorems settling the specification claims.

Kernel control operations (ioctls) and the recursive `subvolDelete` outcome
depend on the kernel; their results are supplied by an explicit environment
record `Env`, while the directory layout under `home` is modelled by an
explicit filesystem value `FS`.  Every branch of the Go source is mirrored
by a branch of the corresponding Lean definition.
-/

namespace Btrfs

/-- Kernel constant `BTRFS_PATH_NAME_MAX` from `linux/btrfs.h`: the name
field of `struct btrfs_ioctl_vol_args` is `char name[BTRFS_PATH_NAME_MAX + 1]`. -/
def BTRFS_PATH_NAME_MAX : Nat := 4087

/-- Kernel constant `BTRFS_SUBVOL_NAME_MAX` from `linux/btrfs.h`: the name
field of `struct btrfs_ioctl_vol_args_v2` is `char name[BTRFS_SUBVOL_NAME_MAX + 1]`. -/
def BTRFS_SUBVOL_NAME_MAX : Nat := 4039

/-- Index positions written by the name-copy loop in `subvolCreate`:
`for i, c := range []byte(name) { args.name[i] = C.char(c) }` writes every
byte position of `name`, with no bound check against the buffer size. -/
def subvolCreateNameWrites (name : List UInt8) : List Nat :=
  List.range name.length

/-- Content of the `args.name` buffer after the `subvolCreate` copy loop
(assuming all writes landed in bounds): byte `i` of the name at position
`i`, and the zero initialisation of `var args` elsewhere. -/
def subvolCreateNameBuf (name : List UInt8) (i : Nat) : UInt8 :=
  (name.getD i 0)

/-- Model of the C helper `set_name_btrfs_ioctl_vol_args_v2`, which copies
`value` into `btrfs_struct->name` with
`snprintf(btrfs_struct->name, BTRFS_SUBVOL_NAME_MAX, "%s", value)`:
`snprintf` with size `n` stores at most `n - 1` characters plus a
terminating NUL, silently truncating longer input. -/
def set_name_btrfs_ioctl_vol_args_v2 (value : List UInt8) : List UInt8 :=
  value.take (BTRFS_SUBVOL_NAME_MAX - 1)

/-- Errors returned by the driver's operations, one constructor per
distinct error produced in the Go source. -/
inductive GoError where
  /-- a stat / read on a missing path (`os.IsNotExist` holds) -/
  | notExist (path : String)
  /-- the `"%s: not a directory"` error from `Create` / `Get` -/
  | notADirectory (path : String)
  /-- error of a failed `openDir` (`"Can't open dir"`) -/
  | openDirFailed (path : String)
  /-- error `"Failed to create btrfs subvolume"` from `subvolCreate` -/
  | subvolCreateFailed (name : String)
  /-- error `"Failed to create btrfs snapshot"` from `subvolSnapshot` -/
  | snapshotFailed (name : String)
  /-- error `"Failed to enable btrfs quota"` from `enableQuota` -/
  | quotaEnableFailed (home : String)
  /-- error `"Failed to rescan btrfs quota"` from `subvolRescanQuota` -/
  | rescanFailed (home : String)
  /-- error `"Failed to limit qgroup"` from `subvolLimitQgroup` -/
  | limitFailed (path : String)
  /-- error `"btrfs: invalid storage size"` from `setStorageSize` (size is zero) -/
  | invalidStorageSize
  /-- error `"btrfs: storage size cannot be less than"` from `setStorageSize` -/
  | storageSizeBelowMin (minSpace : Nat)
  /-- error `"Unknown option"` from `parseStorageOpt` -/
  | unknownOption (key : String)
  /-- error when `units.RAMInBytes` failed to parse the `size` option value -/
  | sizeParseFailed
  /-- an error returned by `subvolDelete`, carrying its message text -/
  | deleteFailed (msg : String)
  /-- the `errors.Wrap` of a `subvolDelete` error with the user-namespace
  remediation hint in `Remove` -/
  | userNSHint (msg : String)
  /-- error of a failed `containerfs.EnsureRemoveAll` -/
  | removeAllFailed (path : String)
  /-- error of a failed `label.Relabel` -/
  | relabelFailed (path : String)
  /-- a walk callback error wrapped as `"error walking subvolumes"` -/
  | walkWrapped (inner : GoError)
deriving DecidableEq, Repr

/-- Classifier matching `os.IsNotExist` on the modelled errors. -/
def GoError.isNotExist : GoError → Bool
  | .notExist _ => true
  | _ => false

/-- Membership in the spec's `InvalidArgument` taxonomy class: malformed or
out-of-range option values. -/
def GoError.isInvalidArgument : GoError → Bool
  | .invalidStorageSize => true
  | .storageSizeBelowMin _ => true
  | .unknownOption _ => true
  | .sizeParseFailed => true
  | _ => false

/-- Observable kernel-facing and filesystem-facing actions emitted by an
operation, recorded in order. -/
inductive Event where
  /-- the body of `d.once.Do` in `updateQuotaStatus` ran -/
  | onceBody
  /-- the `BTRFS_IOC_TREE_SEARCH` status probe of `qgroupStatus` -/
  | statusIoctl
  /-- the `BTRFS_IOC_QUOTA_CTL` enable ioctl of `enableQuota` -/
  | quotaCtlIoctl
  /-- the `BTRFS_IOC_QUOTA_RESCAN_WAIT` ioctl of `subvolRescanQuota` -/
  | rescanIoctl
  /-- the `BTRFS_IOC_QGROUP_LIMIT` ioctl of `subvolLimitQgroup` -/
  | limitIoctl (path : String) (size : Nat)
  /-- the `BTRFS_IOC_SUBVOL_CREATE` ioctl of `subvolCreate` -/
  | createIoctl (parentDir name : String)
  /-- the `BTRFS_IOC_SNAP_CREATE_V2` ioctl of `subvolSnapshot` -/
  | snapIoctl (src dest name : String)
  /-- the call to `subvolDelete` made by `Remove` -/
  | deleteCall (dirpath name : String) (quotaEnabled : Bool)
  /-- the call to `containerfs.EnsureRemoveAll` made by `Remove` -/
  | removeAllCall (path : String)
  /-- the `os.WriteFile` of the quota record in `Create` -/
  | writeQuota (path content : String)
deriving DecidableEq, Repr

/-- Recogniser for the once-body event, used to count probe executions. -/
def Event.isOnceBody : Event → Bool
  | .onceBody => true
  | _ => false

/-- Number of once-body executions recorded in a trace. -/
def onceCount (tr : List Event) : Nat :=
  (tr.filter Event.isOnceBody).length

/-- Explicit filesystem state: the set of directories and the regular files
(with contents) under the driver's view.  Stat of a present path succeeds,
stat of an absent path fails with a not-exist error. -/
structure FS where
  dirs : List String
  files : List (String × String)
deriving DecidableEq, Repr

/-- Check whether `p` is a directory. -/
def FS.isDir (fs : FS) (p : String) : Bool := fs.dirs.contains p

/-- Check whether `p` is a regular file. -/
def FS.isFile (fs : FS) (p : String) : Bool := (fs.files.lookup p).isSome

/-- Check whether `p` exists at all (directory or regular file). -/
def FS.pathExists (fs : FS) (p : String) : Bool := fs.isDir p || fs.isFile p

/-- Read a regular file's contents (`os.ReadFile`); `none` when absent. -/
def FS.readFile (fs : FS) (p : String) : Option String := fs.files.lookup p

/-- Write (create or overwrite) a regular file (`os.WriteFile`). -/
def FS.writeFile (fs : FS) (p c : String) : FS :=
  { fs with files := (p, c) :: fs.files.filter (fun q => q.1 ≠ p) }

/-- Remove a regular file (`os.Remove` on a file path). -/
def FS.removeFile (fs : FS) (p : String) : FS :=
  { fs with files := fs.files.filter (fun q => q.1 ≠ p) }

/-- Create a directory if absent (`user.MkdirAllAndChown`). -/
def FS.addDir (fs : FS) (p : String) : FS :=
  if fs.isDir p then fs else { fs with dirs := p :: fs.dirs }

/-- Test whether path `p` equals `root` or lies underneath it. -/
def underPath (root p : String) : Bool :=
  p = root || String.isPrefixOf (root ++ "/") p

/-- Remove a whole subtree (`containerfs.EnsureRemoveAll`, and the effect of
a successful `subvolDelete` on the backing tree). -/
def FS.removeTree (fs : FS) (root : String) : FS :=
  { dirs := fs.dirs.filter (fun p => ¬ underPath root p)
    files := fs.files.filter (fun q => ¬ underPath root q.1) }

/-- The result of `units.RAMInBytes` on a storage-option value: the library
is an external collaborator, so option values are carried as their parse
outcome (`ok n` for a successful parse to `n` bytes as an `int64`). -/
inductive RamBytes where
  | ok (n : Int)
  | err
deriving DecidableEq, Repr

/-- Go's `uint64(n)` conversion of an `int64` value: two's-complement
wraparound into `[0, 2^64)`. -/
def toUint64 (n : Int) : Nat := (n % (2 : Int) ^ 64).toNat

/-- Per-create options (`graphdriver.CreateOpts`): the storage options as a
key/value list and the mount label. -/
structure CreateOpts where
  storageOpt : List (String × RamBytes)
  mountLabel : String
deriving DecidableEq, Repr

/-- Driver state (`type Driver struct`): the home path, the parsed global
options (`minSpace`), the cached `quotaEnabled` flag and whether `d.once`
has fired.  The identity mapping is not modelled: ownership of created
paths is outside this filesystem model and no claim depends on it. -/
structure Driver where
  home : String
  minSpace : Nat
  quotaEnabled : Bool
  onceDone : Bool
deriving DecidableEq, Repr

/-- Outcomes of the kernel-facing calls an operation may make, fixed for
the duration of one driver operation.  `openDir` failures for the home
directory are separate; `openDir` failures for freshly created subvolume
paths are folded into the corresponding ioctl outcome. -/
structure Env where
  /-- whether `qgroupStatus(d.home)` returns nil (open, search and header check) -/
  qgroupStatusOK : Bool
  /-- whether `openDir(d.home)` succeeds -/
  openHomeOK : Bool
  /-- the `BTRFS_IOC_QUOTA_CTL` enable ioctl succeeds -/
  quotaCtlOK : Bool
  /-- the `BTRFS_IOC_QUOTA_RESCAN_WAIT` ioctl succeeds -/
  rescanOK : Bool
  /-- whether `subvolLimitQgroup` succeeds -/
  limitOK : Bool
  /-- whether `subvolCreate` succeeds -/
  subvolCreateOK : Bool
  /-- whether `subvolSnapshot` succeeds -/
  snapshotOK : Bool
  /-- result of `subvolDelete`: `none` for success, `some msg` for an error
  with message text `msg` -/
  deleteResult : Option String
  /-- whether `containerfs.EnsureRemoveAll` succeeds -/
  removeAllOK : Bool
  /-- whether `label.Relabel` succeeds -/
  relabelOK : Bool
  /-- value of `userns.RunningInUserNS()` -/
  inUserNS : Bool
deriving DecidableEq, Repr

/-- Model of Go's `path.Join` restricted to clean components as used by the
driver's path helpers. -/
def joinPath (a b : String) : String :=
  if a = "" then b else if b = "" then a else a ++ "/" ++ b

/-- Path helper `d.subvolumesDir()`. -/
def Driver.subvolumesDir (d : Driver) : String := joinPath d.home "subvolumes"

/-- Path helper `d.subvolumesDirID(id)`. -/
def Driver.subvolumesDirID (d : Driver) (id : String) : String :=
  joinPath d.subvolumesDir id

/-- Path helper `d.quotasDir()`. -/
def Driver.quotasDir (d : Driver) : String := joinPath d.home "quotas"

/-- Path helper `d.quotasDirID(id)`. -/
def Driver.quotasDirID (d : Driver) (id : String) : String :=
  joinPath d.quotasDir id

/-- List-level substring test used to model `strings.Contains`. -/
def listHasSubstr (needle : List Char) : List Char → Bool
  | [] => needle.isEmpty
  | c :: t => needle.isPrefixOf (c :: t) || listHasSubstr needle t

/-- Model of `strings.Contains hay needle`. -/
def strContains (hay needle : String) : Bool :=
  listHasSubstr needle.toList hay.toList

/-- The substring `Remove` looks for in a `subvolDelete` error when running
in a user namespace. -/
def opNotPermitted : String := "operation not permitted"

/-- Result of a driver-state operation: Go error (or `none`), the updated
driver state and the emitted events. -/
structure OpResult where
  err : Option GoError
  d : Driver
  tr : List Event
deriving DecidableEq, Repr

/-- Model of `(d *Driver) updateQuotaStatus()`: inside `d.once.Do`, when
the flag is not already set, probe `qgroupStatus(d.home)` and set
`quotaEnabled` on success; any probe failure is silent. -/
def updateQuotaStatus (env : Env) (d : Driver) : Driver × List Event :=
  if d.onceDone then (d, [])
  else
    let d1 : Driver := { d with onceDone := true }
    if d.quotaEnabled then (d1, [.onceBody])
    else if env.qgroupStatusOK then
      ({ d1 with quotaEnabled := true }, [.onceBody, .statusIoctl])
    else (d1, [.onceBody, .statusIoctl])

/-- Model of `(d *Driver) enableQuota()`: refresh the cached status; return
immediately when already enabled; otherwise open `d.home` and issue the
quota-control enable ioctl, caching success. -/
def enableQuota (env : Env) (d : Driver) : OpResult :=
  let p := updateQuotaStatus env d
  if p.1.quotaEnabled then ⟨none, p.1, p.2⟩
  else if env.openHomeOK then
    if env.quotaCtlOK then
      ⟨none, { p.1 with quotaEnabled := true }, p.2 ++ [.quotaCtlIoctl]⟩
    else ⟨some (.quotaEnableFailed p.1.home), p.1, p.2 ++ [.quotaCtlIoctl]⟩
  else ⟨some (.openDirFailed p.1.home), p.1, p.2⟩

/-- Model of `(d *Driver) subvolRescanQuota()`: refresh the cached status;
a no-op when quota is not enabled; otherwise open `d.home` and issue the
blocking rescan-and-wait ioctl. -/
def subvolRescanQuota (env : Env) (d : Driver) : OpResult :=
  let p := updateQuotaStatus env d
  if p.1.quotaEnabled then
    if env.openHomeOK then
      if env.rescanOK then ⟨none, p.1, p.2 ++ [.rescanIoctl]⟩
      else ⟨some (.rescanFailed p.1.home), p.1, p.2 ++ [.rescanIoctl]⟩
    else ⟨some (.openDirFailed p.1.home), p.1, p.2⟩
  else ⟨none, p.1, p.2⟩

/-- Model of `subvolLimitQgroup(path, size)`: issue the qgroup-limit ioctl
on `path` (an `openDir` failure on the subvolume path is folded into the
ioctl outcome). -/
def subvolLimitQgroup (env : Env) (p : String) (size : Nat) :
    Option GoError × List Event :=
  if env.limitOK then (none, [.limitIoctl p size])
  else (some (.limitFailed p), [.limitIoctl p size])

/-- Model of Go's `strconv.ParseUint(s, 10, 64)`: succeeds exactly on a
nonempty all-digit string whose value fits in 64 bits (Go returns
`ErrSyntax` for empty or non-digit input — `ParseUint` accepts no sign —
and `ErrRange` on overflow). -/
def parseUint64 (s : String) : Option Nat :=
  let cs := s.toList
  if cs.isEmpty then none
  else if cs.all (fun c => c.isDigit) then
    let v := cs.foldl (fun acc c => acc * 10 + (c.toNat - 48)) 0
    if v < 2 ^ 64 then some v else none
  else none

/-- Result of an operation that touches both driver state and the
filesystem (`Create`, `Remove`). -/
structure FsOpResult where
  err : Option GoError
  d : Driver
  fs : FS
  tr : List Event
deriving DecidableEq, Repr

/-- Tail of `Remove` after the `subvolDelete` step has been dealt with:
`containerfs.EnsureRemoveAll(dir)` (aborting on its failure) and then
`return d.subvolRescanQuota()`. -/
def removeFallback (env : Env) (d : Driver) (fs : FS) (dir : String)
    (tr : List Event) : FsOpResult :=
  if env.removeAllOK then
    let fs1 := fs.removeTree dir
    let r := subvolRescanQuota env d
    ⟨r.err, r.d, fs1, tr ++ [.removeAllCall dir] ++ r.tr⟩
  else ⟨some (.removeAllFailed dir), d, fs, tr ++ [.removeAllCall dir]⟩

/-- Model of `(d *Driver) Remove(id)`: stat the subvolume directory
(returning the stat error when it is missing); remove the quota record
file if present; refresh quota status; call `subvolDelete`; on a delete
error, abort when quota is enabled (wrapping a not-permitted error with
the user-namespace hint), and otherwise fall through to the rmdir-based
fallback; force-remove the directory tree; finally return the result of
the quota rescan. -/
def Remove (env : Env) (d : Driver) (fs : FS) (id : String) : FsOpResult :=
  let dir := d.subvolumesDirID id
  if fs.pathExists dir then
    let quotasDir := d.quotasDirID id
    -- `os.Stat(quotasDir)` fails only with a not-exist error in this
    -- filesystem model, so the `!os.IsNotExist(err)` abort branch of the
    -- source cannot fire and the remove itself succeeds on a present file
    let fs1 := if fs.pathExists quotasDir then fs.removeFile quotasDir else fs
    let p := updateQuotaStatus env d
    let tr1 := p.2 ++ [.deleteCall p.1.subvolumesDir id p.1.quotaEnabled]
    match env.deleteResult with
    | some msg =>
      if p.1.quotaEnabled then
        let e := if env.inUserNS && strContains msg opNotPermitted
          then GoError.userNSHint msg else GoError.deleteFailed msg
        ⟨some e, p.1, fs1, tr1⟩
      else removeFallback env p.1 fs1 dir tr1
    | none => removeFallback env p.1 (fs1.removeTree dir) dir tr1
  else ⟨some (.notExist dir), d, fs, []⟩

/-- Model of Go's `strings.ToLower` on the ASCII keys the driver uses,
mapping `Char.toLower` over the characters. -/
def goLower (s : String) : String := String.mk (s.toList.map Char.toLower)

/-- Model of `(d *Driver) parseStorageOpt(storageOpt, driver)`: fold over
the option entries, lower-casing keys; a `size` entry sets the scratch
driver's size via `units.RAMInBytes` and the `uint64` conversion; any
other key is an unknown-option error. -/
def parseStorageOpt (opts : List (String × RamBytes)) : Except GoError Nat :=
  opts.foldlM
    (fun _ kv =>
      let key := goLower kv.1
      if key = "size" then
        match kv.2 with
        | .ok n => .ok (toUint64 n)
        | .err => .error GoError.sizeParseFailed
      else .error (.unknownOption key))
    0

/-- Model of `(d *Driver) setStorageSize(dir, driver)`: reject a zero
size, reject a size below the configured `minSpace` floor when one is
set, then enable quota and apply the qgroup limit. -/
def setStorageSize (env : Env) (d : Driver) (dir : String) (size : Nat) :
    OpResult :=
  if size = 0 then ⟨some .invalidStorageSize, d, []⟩
  else if 0 < d.minSpace ∧ size < d.minSpace then
    ⟨some (.storageSizeBelowMin d.minSpace), d, []⟩
  else
    let r := enableQuota env d
    match r.err with
    | some e => ⟨some e, r.d, r.tr⟩
    | none =>
      let q := subvolLimitQgroup env dir size
      ⟨q.1, r.d, r.tr ++ q.2⟩

/-- The subvolume-or-snapshot step of `Create`: a fresh `subvolCreate`
inside `subvolumes` when `parent` is empty; otherwise stat the parent's
directory, require it to be a directory, and `subvolSnapshot` it to `id`.
Returns the error (or `none`), the updated filesystem and the events. -/
def createStep (env : Env) (d : Driver) (fs : FS) (subvolumes id parent : String) :
    Option GoError × FS × List Event :=
  if parent = "" then
    if env.subvolCreateOK then
      (none, fs.addDir (joinPath subvolumes id), [.createIoctl subvolumes id])
    else (some (.subvolCreateFailed id), fs, [.createIoctl subvolumes id])
  else
    let parentDir := d.subvolumesDirID parent
    if fs.pathExists parentDir then
      if fs.isDir parentDir then
        if env.snapshotOK then
          (none, fs.addDir (joinPath subvolumes id),
            [.snapIoctl parentDir subvolumes id])
        else (some (.snapshotFailed id), fs, [.snapIoctl parentDir subvolumes id])
      else (some (.notADirectory parentDir), fs, [])
    else (some (.notExist parentDir), fs, [])

/-- Tail of `Create`: the chown under a remapped root (ownership is not
tracked by the filesystem model) and the final `label.Relabel`. -/
def createFinish (env : Env) (d : Driver) (fs : FS) (subvolPath : String)
    (tr : List Event) : FsOpResult :=
  if env.relabelOK then ⟨none, d, fs, tr⟩
  else ⟨some (.relabelFailed subvolPath), d, fs, tr⟩

/-- Model of `(d *Driver) Create(id, parent, opts)`: ensure the
`subvolumes` directory, create or snapshot the subvolume, and — only when
a `size` storage option is present — parse the options, validate and
apply the size via `setStorageSize`, ensure the `quotas` directory and
persist the size to the quota record file; finish with chown/relabel. -/
def Create (env : Env) (d : Driver) (fs : FS) (id parent : String)
    (opts : Option CreateOpts) : FsOpResult :=
  let quotas := joinPath d.home "quotas"
  let subvolumes := joinPath d.home "subvolumes"
  let fs0 := fs.addDir subvolumes
  match createStep env d fs0 subvolumes id parent with
  | (some e, fs1, tr) => ⟨some e, d, fs1, tr⟩
  | (none, fs1, tr) =>
    let storageOpt := match opts with
      | some o => o.storageOpt
      | none => []
    match storageOpt.lookup "size" with
    | some _ =>
      match parseStorageOpt storageOpt with
      | .error e => ⟨some e, d, fs1, tr⟩
      | .ok size =>
        let r := setStorageSize env d (joinPath subvolumes id) size
        match r.err with
        | some e => ⟨some e, r.d, fs1, tr ++ r.tr⟩
        | none =>
          let qpath := joinPath quotas id
          let fs2 := ((fs1.addDir quotas).writeFile qpath (toString size))
          createFinish env r.d fs2 (joinPath subvolumes id)
            (tr ++ r.tr ++ [.writeQuota qpath (toString size)])
    | none => createFinish env d fs1 (joinPath subvolumes id) tr

/-- Result of `(d *Driver) Get`: the error (or `none`), the returned path
(`""` on error, as in Go), the updated driver state and the events. -/
structure GetResult where
  err : Option GoError
  path : String
  d : Driver
  tr : List Event
deriving DecidableEq, Repr

/-- Model of `(d *Driver) Get(id, mountLabel)`: stat the subvolume
directory (failing when missing or not a directory); when the quota
record file reads back a value that parses as a decimal unsigned integer
and is at least `minSpace`, re-enable quota and re-apply the limit;
return the subvolume path. -/
def Get (env : Env) (d : Driver) (fs : FS) (id mountLabel : String) : GetResult :=
  let dir := d.subvolumesDirID id
  if fs.pathExists dir then
    if fs.isDir dir then
      match fs.readFile (d.quotasDirID id) with
      | some quota =>
        match parseUint64 quota with
        | some size =>
          if d.minSpace ≤ size then
            let r := enableQuota env d
            match r.err with
            | some e => ⟨some e, "", r.d, r.tr⟩
            | none =>
              let q := subvolLimitQgroup env dir size
              match q.1 with
              | some e => ⟨some e, "", r.d, r.tr ++ q.2⟩
              | none => ⟨none, dir, r.d, r.tr ++ q.2⟩
          else ⟨none, dir, d, []⟩
        | none => ⟨none, dir, d, []⟩
      | none => ⟨none, dir, d, []⟩
    else ⟨some (.notADirectory dir), "", d, []⟩
  else ⟨some (.notExist dir), "", d, []⟩

/-- One entry visited by the `filepath.WalkDir` traversal inside
`subvolDelete`: the entry's path, the error `WalkDir` reported for it (if
any), and — for error-free entries — the outcome of the callback's
success branch (the `isSubvolume` test and recursive child delete), whose
result depends on the filesystem and the recursive call. -/
structure WalkEntry where
  p : String
  err : Option GoError
  succOutcome : Option GoError
deriving DecidableEq, Repr

/-- The `walkSubVolumes` callback of `subvolDelete` applied to one entry:
a reported error is tolerated (the walk continues) exactly when it is a
not-exist error on a path other than `fullPath` (the traversal's own
root); any other reported error is wrapped as
`"error walking subvolumes"` and aborts. -/
def walkSubVolumesStep (fullPath : String) (e : WalkEntry) : Option GoError :=
  match e.err with
  | some err =>
    if err.isNotExist && e.p ≠ fullPath then none
    else some (.walkWrapped err)
  | none => e.succOutcome

/-- The walk phase of `subvolDelete`: process entries in order, stopping
at the first callback error. -/
def walkRun (fullPath : String) : List WalkEntry → Option GoError
  | [] => none
  | e :: rest =>
    match walkSubVolumesStep fullPath e with
    | some err => some err
    | none => walkRun fullPath rest

/-- Combined driver-plus-filesystem state for operation sequences. -/
structure Sys where
  d : Driver
  fs : FS
deriving DecidableEq, Repr

/-- One public operation on a driver instance, carrying the kernel-call
outcomes for its duration. -/
inductive DOp where
  | updStatus (env : Env)
  | enable (env : Env)
  | create (env : Env) (id parent : String) (opts : Option CreateOpts)
  | remove (env : Env) (id : String)
  | get (env : Env) (id mountLabel : String)

/-- Run one operation on the combined state, returning the new state and
the emitted events (results are discarded for sequence-level claims). -/
def runOp : DOp → Sys → Sys × List Event
  | .updStatus env, s =>
    let p := updateQuotaStatus env s.d
    (⟨p.1, s.fs⟩, p.2)
  | .enable env, s =>
    let r := enableQuota env s.d
    (⟨r.d, s.fs⟩, r.tr)
  | .create env id parent opts, s =>
    let r := Create env s.d s.fs id parent opts
    (⟨r.d, r.fs⟩, r.tr)
  | .remove env id, s =>
    let r := Remove env s.d s.fs id
    (⟨r.d, r.fs⟩, r.tr)
  | .get env id ml, s =>
    let r := Get env s.d s.fs id ml
    (⟨r.d, s.fs⟩, r.tr)

/-- Run a sequence of operations, concatenating the event traces. -/
def runOps : List DOp → Sys → Sys × List Event
  | [], s => (s, [])
  | op :: rest, s =>
    let p := runOp op s
    let q := runOps rest p.1
    (q.1, p.2 ++ q.2)

/-- Spec-level tri-state knowledge about quota: unknown before the probe,
then probed-false or probed-true. -/
inductive QuotaKnowledge where
  | unknown
  | probedFalse
  | probedTrue
deriving DecidableEq, Repr

/-- The tri-state reading of a driver's `(onceDone, quotaEnabled)` pair. -/
def Driver.triState (d : Driver) : QuotaKnowledge :=
  if d.quotaEnabled then .probedTrue
  else if d.onceDone then .probedFalse
  else .unknown

/-- Probe-count potential of a driver: how many more times the once body
may still run. -/
def pot (d : Driver) : Nat := if d.onceDone then 0 else 1

/-- Single-step driver-state discipline: the cached flag is never cleared,
the once guard is never reset, and a trace never contains more once-body
executions than the starting state still permits. -/
def DStep (d d' : Driver) (tr : List Event) : Prop :=
  (d.quotaEnabled = true → d'.quotaEnabled = true) ∧
  (d.onceDone = true → d'.onceDone = true) ∧
  onceCount tr + pot d' ≤ pot d

/-- The tri-state transitions actually performed by the driver: staying
put, resolving the unknown state, or flipping probed-false to probed-true
through a successful explicit quota enable. -/
def triStepOk (a b : QuotaKnowledge) : Prop :=
  a = b ∨ a = .unknown ∨ (a = .probedFalse ∧ b = .probedTrue)

/-- Concrete environment in which every kernel call succeeds, used by the
closed witness and counterexample instances. -/
def envAllOK : Env :=
  { qgroupStatusOK := true
    openHomeOK := true
    quotaCtlOK := true
    rescanOK := true
    limitOK := true
    subvolCreateOK := true
    snapshotOK := true
    deleteResult := none
    removeAllOK := true
    relabelOK := true
    inUserNS := false }

theorem onceCount_append (a b : List Event) :
    onceCount (a ++ b) = onceCount a + onceCount b := by
  simp [onceCount, List.filter_append]

theorem pot_le_one (d : Driver) : pot d ≤ 1 := by
  unfold pot
  split <;> simp

theorem updateQuotaStatus_noop (env : Env) (d : Driver) (h : d.onceDone = true) :
    updateQuotaStatus env d = (d, []) := by
  simp [updateQuotaStatus, h]

theorem updateQuotaStatus_onceDone (env : Env) (d : Driver) :
    (updateQuotaStatus env d).1.onceDone = true := by
  unfold updateQuotaStatus
  split
  · next h => exact h
  · split
    · rfl
    · split <;> rfl

theorem updateQuotaStatus_quotaMono (env : Env) (d : Driver)
    (h : d.quotaEnabled = true) :
    (updateQuotaStatus env d).1.quotaEnabled = true := by
  unfold updateQuotaStatus
  split
  · exact h
  · simp [h]

theorem updateQuotaStatus_home (env : Env) (d : Driver) :
    (updateQuotaStatus env d).1.home = d.home := by
  unfold updateQuotaStatus
  split
  · rfl
  · split
    · rfl
    · split <;> rfl

theorem updateQuotaStatus_minSpace (env : Env) (d : Driver) :
    (updateQuotaStatus env d).1.minSpace = d.minSpace := by
  unfold updateQuotaStatus
  split
  · rfl
  · split
    · rfl
    · split <;> rfl

theorem updateQuotaStatus_onceCount (env : Env) (d : Driver) :
    onceCount (updateQuotaStatus env d).2 = pot d := by
  unfold updateQuotaStatus pot
  split
  · next h => simp [h, onceCount]
  · next h =>
    simp only [Bool.not_eq_true] at h
    split
    · simp [h, onceCount, Event.isOnceBody]
    · split <;> simp [h, onceCount, Event.isOnceBody]

theorem updateQuotaStatus_pot (env : Env) (d : Driver) :
    pot (updateQuotaStatus env d).1 = 0 := by
  simp [pot, updateQuotaStatus_onceDone]

theorem updateQuotaStatus_tr_shape (env : Env) (d : Driver) :
    ∀ e ∈ (updateQuotaStatus env d).2, e = .onceBody ∨ e = .statusIoctl := by
  unfold updateQuotaStatus
  split
  · simp
  · split
    · simp
    · split <;> simp

theorem updateQuotaStatus_dstep (env : Env) (d : Driver) :
    DStep d (updateQuotaStatus env d).1 (updateQuotaStatus env d).2 := by
  refine ⟨updateQuotaStatus_quotaMono env d, fun _ => updateQuotaStatus_onceDone env d, ?_⟩
  rw [updateQuotaStatus_onceCount, updateQuotaStatus_pot]
  omega

theorem dstep_refl (d : Driver) : DStep d d [] := by
  refine ⟨id, id, ?_⟩
  simp [onceCount]

theorem dstep_comp {d1 d2 d3 : Driver} {tr1 tr2 : List Event}
    (h1 : DStep d1 d2 tr1) (h2 : DStep d2 d3 tr2) :
    DStep d1 d3 (tr1 ++ tr2) := by
  obtain ⟨q1, o1, c1⟩ := h1
  obtain ⟨q2, o2, c2⟩ := h2
  refine ⟨fun h => q2 (q1 h), fun h => o2 (o1 h), ?_⟩
  rw [onceCount_append]
  omega

theorem dstep_same_count {d1 d2 : Driver} {tr tr' : List Event}
    (hc : onceCount tr' = onceCount tr) (h : DStep d1 d2 tr) :
    DStep d1 d2 tr' := by
  obtain ⟨q, o, c⟩ := h
  exact ⟨q, o, by omega⟩

theorem triStep_of_dstep {d d' : Driver} {tr : List Event}
    (h : DStep d d' tr) : triStepOk d.triState d'.triState := by
  obtain ⟨q, o, -⟩ := h
  unfold Driver.triState triStepOk
  by_cases hq : d.quotaEnabled = true
  · simp [hq, q hq]
  · by_cases ho : d.onceDone = true
    · simp only [Bool.not_eq_true] at hq
      by_cases hq' : d'.quotaEnabled = true <;> simp [hq, ho, o ho, hq']
    · simp only [Bool.not_eq_true] at hq ho
      simp [hq, ho]

theorem onceCount_quotaCtl : onceCount [Event.quotaCtlIoctl] = 0 := rfl

theorem enableQuota_d_shape (env : Env) (d : Driver) :
    (enableQuota env d).d = (updateQuotaStatus env d).1 ∨
    (enableQuota env d).d = { (updateQuotaStatus env d).1 with quotaEnabled := true } := by
  unfold enableQuota
  by_cases h1 : (updateQuotaStatus env d).1.quotaEnabled = true <;>
    by_cases h2 : env.openHomeOK = true <;>
      by_cases h3 : env.quotaCtlOK = true <;>
        simp [h1, h2, h3]

theorem enableQuota_onceDone (env : Env) (d : Driver) :
    (enableQuota env d).d.onceDone = true := by
  rcases enableQuota_d_shape env d with h | h <;>
    simp [h, updateQuotaStatus_onceDone]

theorem enableQuota_quotaMono (env : Env) (d : Driver) (h : d.quotaEnabled = true) :
    (enableQuota env d).d.quotaEnabled = true := by
  rcases enableQuota_d_shape env d with h1 | h1 <;>
    simp [h1, updateQuotaStatus_quotaMono env d h]

theorem enableQuota_onceCount (env : Env) (d : Driver) :
    onceCount (enableQuota env d).tr = pot d := by
  unfold enableQuota
  by_cases h1 : (updateQuotaStatus env d).1.quotaEnabled = true <;>
    by_cases h2 : env.openHomeOK = true <;>
      by_cases h3 : env.quotaCtlOK = true <;>
        simp [h1, h2, h3, onceCount_append, onceCount_quotaCtl,
          updateQuotaStatus_onceCount]

theorem enableQuota_dstep (env : Env) (d : Driver) :
    DStep d (enableQuota env d).d (enableQuota env d).tr := by
  refine ⟨fun h => enableQuota_quotaMono env d h,
    fun _ => enableQuota_onceDone env d, ?_⟩
  rw [enableQuota_onceCount]
  have : pot (enableQuota env d).d = 0 := by
    simp [pot, enableQuota_onceDone]
  omega

theorem onceCount_nil : onceCount [] = 0 := rfl

theorem onceCount_cons (e : Event) (tr : List Event) :
    onceCount (e :: tr) = cond e.isOnceBody 1 0 + onceCount tr := by
  cases h : e.isOnceBody <;> simp [onceCount, List.filter_cons, h, Nat.add_comm]

theorem subvolLimitQgroup_tr (env : Env) (p : String) (n : Nat) :
    (subvolLimitQgroup env p n).2 = [.limitIoctl p n] := by
  unfold subvolLimitQgroup
  split <;> rfl

theorem subvolRescanQuota_dstep (env : Env) (d : Driver) :
    DStep d (subvolRescanQuota env d).d (subvolRescanQuota env d).tr := by
  unfold subvolRescanQuota
  by_cases h1 : (updateQuotaStatus env d).1.quotaEnabled = true <;>
    by_cases h2 : env.openHomeOK = true <;>
      by_cases h3 : env.rescanOK = true <;>
        simp only [h1, h2, h3, if_true, if_false, Bool.false_eq_true,
          ite_true, ite_false] <;>
        exact dstep_same_count
          (by simp [onceCount_append, onceCount_cons, onceCount_nil, Event.isOnceBody])
          (updateQuotaStatus_dstep env d)

theorem setStorageSize_dstep (env : Env) (d : Driver) (dir : String) (n : Nat) :
    DStep d (setStorageSize env d dir n).d (setStorageSize env d dir n).tr := by
  unfold setStorageSize
  by_cases h1 : n = 0
  · simpa [h1] using dstep_refl d
  · by_cases h2 : 0 < d.minSpace ∧ n < d.minSpace
    · simpa [h1, h2] using dstep_refl d
    · simp only [h1, h2, if_false, ite_false]
      cases herr : (enableQuota env d).err <;>
        simp only [herr] <;>
        first
        | exact enableQuota_dstep env d
        | exact dstep_same_count
            (by simp [subvolLimitQgroup_tr, onceCount_append, onceCount_cons,
              onceCount_nil, Event.isOnceBody])
            (enableQuota_dstep env d)

theorem createStep_onceCount (env : Env) (d : Driver) (fs : FS)
    (subvolumes id parent : String) :
    onceCount (createStep env d fs subvolumes id parent).2.2 = 0 := by
  unfold createStep
  by_cases h1 : parent = "" <;>
    by_cases h2 : fs.pathExists (d.subvolumesDirID parent) = true <;>
      by_cases h3 : env.subvolCreateOK = true <;>
        by_cases h4 : fs.isDir (d.subvolumesDirID parent) = true <;>
          by_cases h5 : env.snapshotOK = true <;>
            simp [h1, h2, h3, h4, h5, onceCount_cons, onceCount_nil,
              Event.isOnceBody]

theorem createFinish_d (env : Env) (d : Driver) (fs : FS) (p : String)
    (tr : List Event) : (createFinish env d fs p tr).d = d := by
  unfold createFinish
  split <;> rfl

theorem createFinish_tr (env : Env) (d : Driver) (fs : FS) (p : String)
    (tr : List Event) : (createFinish env d fs p tr).tr = tr := by
  unfold createFinish
  split <;> rfl

theorem create_dstep (env : Env) (d : Driver) (fs : FS) (id parent : String)
    (opts : Option CreateOpts) :
    DStep d (Create env d fs id parent opts).d (Create env d fs id parent opts).tr := by
  unfold Create
  rcases hcs : createStep env d (fs.addDir (joinPath d.home "subvolumes"))
      (joinPath d.home "subvolumes") id parent with ⟨oe, fs1, tr⟩
  have htr0 : onceCount tr = 0 := by
    have := createStep_onceCount env d (fs.addDir (joinPath d.home "subvolumes"))
      (joinPath d.home "subvolumes") id parent
    rw [hcs] at this
    exact this
  cases oe with
  | some e =>
    simp only [hcs]
    exact dstep_same_count (by simp [htr0, onceCount_nil]) (dstep_refl d)
  | none =>
    simp only [hcs]
    generalize (match opts with
      | some o => o.storageOpt
      | none => []) = so
    rcases hl : so.lookup "size" with _ | v <;> simp only [hl]
    · simp only [createFinish_d, createFinish_tr]
      exact dstep_same_count (by simp [htr0, onceCount_nil]) (dstep_refl d)
    · rcases hp : parseStorageOpt so with e | size <;> simp only [hp]
      · exact dstep_same_count (by simp [htr0, onceCount_nil]) (dstep_refl d)
      · cases hre : (setStorageSize env d
            (joinPath (joinPath d.home "subvolumes") id) size).err with
        | some e =>
          simp only [hre]
          exact dstep_same_count
            (by simp [onceCount_append, htr0])
            (setStorageSize_dstep env d (joinPath (joinPath d.home "subvolumes") id) size)
        | none =>
          simp only [hre, createFinish_d, createFinish_tr]
          exact dstep_same_count
            (by simp [onceCount_append, htr0, onceCount_cons, onceCount_nil,
              Event.isOnceBody])
            (setStorageSize_dstep env d (joinPath (joinPath d.home "subvolumes") id) size)

theorem removeFallback_dstep (env : Env) (d0 d : Driver) (fs : FS)
    (dir : String) (tr : List Event) (h : DStep d0 d tr) :
    DStep d0 (removeFallback env d fs dir tr).d (removeFallback env d fs dir tr).tr := by
  unfold removeFallback
  by_cases hr : env.removeAllOK = true <;>
    simp only [hr, if_true, if_false, Bool.false_eq_true, ite_true, ite_false]
  · exact dstep_comp
      (dstep_same_count
        (by simp [onceCount_append, onceCount_cons, onceCount_nil, Event.isOnceBody]) h)
      (subvolRescanQuota_dstep env d)
  · exact dstep_same_count
      (by simp [onceCount_append, onceCount_cons, onceCount_nil, Event.isOnceBody]) h

theorem remove_dstep (env : Env) (d : Driver) (fs : FS) (id : String) :
    DStep d (Remove env d fs id).d (Remove env d fs id).tr := by
  unfold Remove
  by_cases hex : fs.pathExists (d.subvolumesDirID id) = true <;>
    simp only [hex, if_true, if_false, Bool.false_eq_true, ite_true, ite_false]
  · cases hdel : env.deleteResult with
    | some msg =>
      simp only []
      by_cases hq : (updateQuotaStatus env d).1.quotaEnabled = true <;>
        simp only [hq, if_true, if_false, Bool.false_eq_true, ite_true, ite_false]
      · exact dstep_same_count
          (by simp [onceCount_append, onceCount_cons, onceCount_nil, Event.isOnceBody])
          (updateQuotaStatus_dstep env d)
      · exact removeFallback_dstep env d _ _ _ _
          (dstep_same_count
            (by simp [onceCount_append, onceCount_cons, onceCount_nil, Event.isOnceBody])
            (updateQuotaStatus_dstep env d))
    | none =>
      simp only []
      exact removeFallback_dstep env d _ _ _ _
        (dstep_same_count
          (by simp [onceCount_append, onceCount_cons, onceCount_nil, Event.isOnceBody])
          (updateQuotaStatus_dstep env d))
  · exact dstep_refl d

theorem get_dstep (env : Env) (d : Driver) (fs : FS) (id ml : String) :
    DStep d (Get env d fs id ml).d (Get env d fs id ml).tr := by
  unfold Get
  by_cases hex : fs.pathExists (d.subvolumesDirID id) = true <;>
    by_cases hdir : fs.isDir (d.subvolumesDirID id) = true <;>
      simp only [hex, hdir, if_true, if_false, Bool.false_eq_true, ite_true, ite_false] <;>
      try exact dstep_refl d
  rcases hq : fs.readFile (d.quotasDirID id) with _ | quota
  · simp only []
    exact dstep_refl d
  · simp only []
    rcases hp : parseUint64 quota with _ | size
    · simp only []
      exact dstep_refl d
    · simp only []
      by_cases hmin : d.minSpace ≤ size <;>
        simp only [hmin, if_true, if_false, ite_true, ite_false]
      · cases herr : (enableQuota env d).err with
        | some e =>
          simp only []
          exact enableQuota_dstep env d
        | none =>
          simp only []
          cases hle : (subvolLimitQgroup env (d.subvolumesDirID id) size).1 <;>
            simp only [] <;>
            exact dstep_same_count
              (by simp [subvolLimitQgroup_tr, onceCount_append, onceCount_cons,
                onceCount_nil, Event.isOnceBody])
              (enableQuota_dstep env d)
      · exact dstep_refl d

theorem runOp_dstep (op : DOp) (s : Sys) :
    DStep s.d (runOp op s).1.d (runOp op s).2 := by
  cases op with
  | updStatus env => exact updateQuotaStatus_dstep env s.d
  | enable env => exact enableQuota_dstep env s.d
  | create env id parent opts => exact create_dstep env s.d s.fs id parent opts
  | remove env id => exact remove_dstep env s.d s.fs id
  | get env id ml => exact get_dstep env s.d s.fs id ml

theorem runOps_dstep (ops : List DOp) (s : Sys) :
    DStep s.d (runOps ops s).1.d (runOps ops s).2 := by
  induction ops generalizing s with
  | nil => exact dstep_refl s.d
  | cons op rest ih =>
    exact dstep_comp (runOp_dstep op s) (ih (runOp op s).1)

/-- C9: during the recursive walk inside `subvolDelete`, a walk entry that
reports a not-exist error is tolerated (the walk continues) if and only if
the entry's path is not the traversal's own root `fullPath`; every other
walk error, and a not-exist error on the root itself, aborts the delete
with a wrapped error. -/
theorem walk_not_exist_tolerated_iff_not_root
    (fullPath : String) (e : WalkEntry) (rest : List WalkEntry) (err0 : GoError)
    (herr : e.err = some err0) :
    (err0.isNotExist = true →
      ((walkSubVolumesStep fullPath e = none ↔ e.p ≠ fullPath) ∧
        (e.p ≠ fullPath → walkRun fullPath (e :: rest) = walkRun fullPath rest) ∧
        (e.p = fullPath →
          walkRun fullPath (e :: rest) = some (GoError.walkWrapped err0)))) ∧
    (err0.isNotExist = false →
      walkRun fullPath (e :: rest) = some (GoError.walkWrapped err0)) := by
  constructor
  · intro hne
    by_cases hp : e.p = fullPath <;>
      simp [walkRun, walkSubVolumesStep, herr, hne, hp]
  · intro hne
    simp [walkRun, walkSubVolumesStep, herr, hne]

theorem walk_not_exist_tolerated_iff_not_root_witness :
    walkRun "r" [⟨"r/x", some (.notExist "r/x"), none⟩] = none ∧
    walkRun "r" [⟨"r", some (.notExist "r"), none⟩]
      = some (.walkWrapped (.notExist "r")) := by
  constructor
  · exact (((walk_not_exist_tolerated_iff_not_root "r"
      ⟨"r/x", some (.notExist "r/x"), none⟩ [] (.notExist "r/x") rfl).1
        (by decide)).2.1 (by decide)).trans rfl
  · exact ((walk_not_exist_tolerated_iff_not_root "r"
      ⟨"r", some (.notExist "r"), none⟩ [] (.notExist "r") rfl).1
        (by decide)).2.2 rfl

/-- C10: when the subvolume directory of `id` exists and is a directory
and the quota record file exists but its contents either do not parse as
a decimal unsigned integer or parse below the `minSpace` floor, `Get`
silently skips quota re-application — no quota enable, no limit ioctl, no
error, unchanged driver state — and still returns the subvolume path. -/
theorem get_unparseable_quota_skips
    (env : Env) (d : Driver) (fs : FS) (id ml content : String)
    (hdir : fs.isDir (d.subvolumesDirID id) = true)
    (hread : fs.readFile (d.quotasDirID id) = some content)
    (hskip : parseUint64 content = none ∨
      ∃ v, parseUint64 content = some v ∧ v < d.minSpace) :
    Get env d fs id ml = ⟨none, d.subvolumesDirID id, d, []⟩ := by
  have hex : fs.pathExists (d.subvolumesDirID id) = true := by
    simp [FS.pathExists, hdir]
  unfold Get
  rcases hskip with h | ⟨v, hv, hlt⟩
  · simp [hex, hdir, hread, h]
  · simp [hex, hdir, hread, hv, Nat.not_le.mpr hlt]

theorem get_unparseable_quota_skips_witness :
    (FS.isDir ⟨["h/subvolumes/i"], [("h/quotas/i", "abc")]⟩
        ((⟨"h", 5, false, false⟩ : Driver).subvolumesDirID "i") = true) ∧
    (parseUint64 "abc" = none) ∧
    Get envAllOK ⟨"h", 5, false, false⟩
        ⟨["h/subvolumes/i"], [("h/quotas/i", "abc")]⟩ "i" ""
      = ⟨none, "h/subvolumes/i", ⟨"h", 5, false, false⟩, []⟩ :=
  ⟨by decide, by decide,
    get_unparseable_quota_skips envAllOK ⟨"h", 5, false, false⟩
      ⟨["h/subvolumes/i"], [("h/quotas/i", "abc")]⟩ "i" "" "abc"
      (by decide) (by decide) (Or.inl (by decide))⟩

/-- C1 (counterexample): on an id whose subvolume directory is gone but
whose quota record file still exists, `Remove` does not return success
and does not delete the quota record file — it returns the stat error of
the missing subvolume directory and leaves the quota file in place. -/
theorem remove_gone_dir_quota_kept_cex :
    (Remove envAllOK ⟨"h", 0, false, false⟩ ⟨[], [("h/quotas/i", "1")]⟩ "i").err
      = some (GoError.notExist "h/subvolumes/i") ∧
    (Remove envAllOK ⟨"h", 0, false, false⟩ ⟨[], [("h/quotas/i", "1")]⟩ "i").fs.isFile
      ((⟨"h", 0, false, false⟩ : Driver).quotasDirID "i") = true := by
  decide

/-- C1 (amended): `Remove` on an id whose subvolume directory no longer
exists returns the stat error of the missing directory without touching
the quota record file or the driver state; the quota-file cleanup happens
only on the path where the subvolume directory still exists. -/
theorem remove_gone_dir_returns_stat_error
    (env : Env) (d : Driver) (fs : FS) (id : String)
    (h : fs.pathExists (d.subvolumesDirID id) = false) :
    Remove env d fs id = ⟨some (.notExist (d.subvolumesDirID id)), d, fs, []⟩ := by
  unfold Remove
  simp [h]

theorem remove_gone_dir_returns_stat_error_witness :
    (FS.pathExists ⟨[], [("h/quotas/i", "1")]⟩
        ((⟨"h", 0, false, false⟩ : Driver).subvolumesDirID "i") = false) ∧
    Remove envAllOK ⟨"h", 0, false, false⟩ ⟨[], [("h/quotas/i", "1")]⟩ "i"
      = ⟨some (.notExist ((⟨"h", 0, false, false⟩ : Driver).subvolumesDirID "i")),
          ⟨"h", 0, false, false⟩, ⟨[], [("h/quotas/i", "1")]⟩, []⟩ :=
  ⟨by decide,
    remove_gone_dir_returns_stat_error envAllOK ⟨"h", 0, false, false⟩
      ⟨[], [("h/quotas/i", "1")]⟩ "i" (by decide)⟩

/-- C8: `enableQuota` is idempotent: in a state where quota is already
known enabled (the once guard has fired and the flag is set, as after the
status probe or a prior successful enable), it returns success at once
with no state change and no events (in particular no quota-control-enable
ioctl); and running `enableQuota` twice yields the same driver state and
the same result as running it once. -/
theorem enable_quota_idempotent (env : Env) (d : Driver) :
    (d.quotaEnabled = true → d.onceDone = true →
      enableQuota env d = ⟨none, d, []⟩) ∧
    (enableQuota env (enableQuota env d).d).d = (enableQuota env d).d ∧
    (enableQuota env (enableQuota env d).d).err = (enableQuota env d).err := by
  refine ⟨fun h1 h2 => by simp [enableQuota, updateQuotaStatus, h1, h2], ?_⟩
  by_cases h1 : d.onceDone = true <;> by_cases h2 : d.quotaEnabled = true <;>
    by_cases h3 : env.qgroupStatusOK = true <;>
      by_cases h4 : env.openHomeOK = true <;>
        by_cases h5 : env.quotaCtlOK = true <;>
          simp [enableQuota, updateQuotaStatus, h1, h2, h3, h4, h5]

theorem enable_quota_idempotent_witness :
    ((⟨"h", 0, true, true⟩ : Driver).quotaEnabled = true) ∧
    enableQuota envAllOK ⟨"h", 0, true, true⟩
      = ⟨none, ⟨"h", 0, true, true⟩, []⟩ :=
  ⟨rfl, (enable_quota_idempotent envAllOK ⟨"h", 0, true, true⟩).1 rfl rfl⟩

/-- C2 (counterexample): with the subvolume present, the quota record
present, the recursive delete and the residue cleanup succeeding, but the
rescan-and-wait ioctl failing, `Remove` does not return success: it
returns the rescan error, even though the removal side effects (both the
quota record and the subvolume tree are gone) all took place. -/
theorem remove_rescan_failure_cex :
    (Remove { envAllOK with rescanOK := false } ⟨"h", 0, true, true⟩
        ⟨["h/subvolumes/i"], [("h/quotas/i", "7")]⟩ "i").err
      = some (GoError.rescanFailed "h") ∧
    (Remove { envAllOK with rescanOK := false } ⟨"h", 0, true, true⟩
        ⟨["h/subvolumes/i"], [("h/quotas/i", "7")]⟩ "i").fs
      = ⟨[], []⟩ := by
  decide

/-- C2 (amended): when the quota-record removal, the recursive subvolume
delete and the residue cleanup all succeed, `Remove` returns the result
of the final quota rescan — success when quota is disabled or the rescan
succeeds, and the rescan error otherwise; the rescan failure does not
undo the removal's side effects, but it is returned as `Remove`'s
result rather than absorbed. -/
theorem remove_returns_rescan_result
    (env : Env) (d : Driver) (fs : FS) (id : String)
    (hdir : fs.pathExists (d.subvolumesDirID id) = true)
    (hdel : env.deleteResult = none)
    (hrm : env.removeAllOK = true) :
    (Remove env d fs id).err =
      (subvolRescanQuota env (updateQuotaStatus env d).1).err := by
  unfold Remove removeFallback
  simp [hdir, hdel, hrm]

theorem remove_returns_rescan_result_witness :
    (FS.pathExists ⟨["h/subvolumes/i"], [("h/quotas/i", "7")]⟩
        ((⟨"h", 0, true, true⟩ : Driver).subvolumesDirID "i") = true) ∧
    (Remove { envAllOK with rescanOK := false } ⟨"h", 0, true, true⟩
        ⟨["h/subvolumes/i"], [("h/quotas/i", "7")]⟩ "i").err
      = (subvolRescanQuota { envAllOK with rescanOK := false }
          (updateQuotaStatus { envAllOK with rescanOK := false }
            ⟨"h", 0, true, true⟩).1).err :=
  ⟨by decide,
    remove_returns_rescan_result { envAllOK with rescanOK := false }
      ⟨"h", 0, true, true⟩ ⟨["h/subvolumes/i"], [("h/quotas/i", "7")]⟩ "i"
      (by decide) (by decide) (by decide)⟩

/-- C3: when `subvolDelete` inside `Remove` reports an error, the error
is fatal exactly when quota is enabled: `Remove` then aborts, returning
that error (wrapped with the user-namespace hint when running in a user
namespace and the message contains "operation not permitted"), before the
filesystem-level fallback cleanup (`EnsureRemoveAll`) runs; only the
recoverable condition — quota not enabled — lets the fallback cleanup
proceed. -/
theorem remove_fatal_delete_aborts_before_fallback
    (env : Env) (d : Driver) (fs : FS) (id msg : String)
    (hdir : fs.pathExists (d.subvolumesDirID id) = true)
    (hdel : env.deleteResult = some msg) :
    ((updateQuotaStatus env d).1.quotaEnabled = true →
      (Remove env d fs id).err =
        some (if env.inUserNS && strContains msg opNotPermitted
          then GoError.userNSHint msg else GoError.deleteFailed msg) ∧
      ∀ p, Event.removeAllCall p ∉ (Remove env d fs id).tr) ∧
    ((updateQuotaStatus env d).1.quotaEnabled = false →
      Event.removeAllCall (d.subvolumesDirID id) ∈ (Remove env d fs id).tr) := by
  constructor
  · intro hq
    have hsh : Remove env d fs id =
        ⟨some (if env.inUserNS && strContains msg opNotPermitted
            then GoError.userNSHint msg else GoError.deleteFailed msg),
          (updateQuotaStatus env d).1,
          (if fs.pathExists (d.quotasDirID id) = true
            then fs.removeFile (d.quotasDirID id) else fs),
          (updateQuotaStatus env d).2 ++
            [.deleteCall (updateQuotaStatus env d).1.subvolumesDir id
              (updateQuotaStatus env d).1.quotaEnabled]⟩ := by
      unfold Remove
      simp [hdir, hdel, hq]
    refine ⟨by rw [hsh], ?_⟩
    intro p hmem
    rw [hsh] at hmem
    simp only [List.mem_append, List.mem_singleton] at hmem
    rcases hmem with h | h
    · rcases updateQuotaStatus_tr_shape env d _ h with h1 | h1 <;> simp at h1
    · simp at h
  · intro hq
    unfold Remove removeFallback
    by_cases hrm : env.removeAllOK = true <;>
      simp [hdir, hdel, hq, hrm]

theorem remove_fatal_delete_aborts_before_fallback_witness :
    ((updateQuotaStatus { envAllOK with deleteResult := some "boom" }
        ⟨"h", 0, true, true⟩).1.quotaEnabled = true) ∧
    (Remove { envAllOK with deleteResult := some "boom" } ⟨"h", 0, true, true⟩
        ⟨["h/subvolumes/i"], []⟩ "i").err = some (GoError.deleteFailed "boom") ∧
    Event.removeAllCall "h/subvolumes/i" ∉
      (Remove { envAllOK with deleteResult := some "boom" } ⟨"h", 0, true, true⟩
        ⟨["h/subvolumes/i"], []⟩ "i").tr := by
  refine ⟨by decide, ?_, ?_⟩
  · exact ((remove_fatal_delete_aborts_before_fallback
      { envAllOK with deleteResult := some "boom" } ⟨"h", 0, true, true⟩
      ⟨["h/subvolumes/i"], []⟩ "i" "boom" (by decide) rfl).1 (by decide)).1
  · exact ((remove_fatal_delete_aborts_before_fallback
      { envAllOK with deleteResult := some "boom" } ⟨"h", 0, true, true⟩
      ⟨["h/subvolumes/i"], []⟩ "i" "boom" (by decide) rfl).1 (by decide)).2
      "h/subvolumes/i"

theorem FS.addDir_files (fs : FS) (p : String) : (fs.addDir p).files = fs.files := by
  unfold FS.addDir
  split <;> rfl

theorem createStep_files (env : Env) (d : Driver) (fs : FS)
    (subvolumes id parent : String) :
    (createStep env d fs subvolumes id parent).2.1.files = fs.files := by
  unfold createStep
  by_cases h1 : parent = "" <;>
    by_cases h2 : fs.pathExists (d.subvolumesDirID parent) = true <;>
      by_cases h3 : env.subvolCreateOK = true <;>
        by_cases h4 : fs.isDir (d.subvolumesDirID parent) = true <;>
          by_cases h5 : env.snapshotOK = true <;>
            simp [h1, h2, h3, h4, h5, FS.addDir_files]

theorem parseStorageOpt_single_size (b : RamBytes) :
    parseStorageOpt [("size", b)] =
      match b with
      | .ok n => Except.ok (toUint64 n)
      | .err => Except.error GoError.sizeParseFailed := by
  cases b <;> rfl

/-- C4: when the per-layer `size` option parses (via `units.RAMInBytes`
and the `uint64` conversion) to zero, or to a value below the global
`minSpace` floor when one is set, and the subvolume-creation step itself
succeeds, `Create` fails with an `InvalidArgument`-class error and
creates no quota record file — the filesystem's files are untouched. -/
theorem create_invalid_size_no_quota_record
    (env : Env) (d : Driver) (fs : FS) (id parent ml : String) (v : Int)
    (hstep : (createStep env d (fs.addDir (joinPath d.home "subvolumes"))
        (joinPath d.home "subvolumes") id parent).1 = none)
    (hsize : toUint64 v = 0 ∨ (0 < d.minSpace ∧ toUint64 v < d.minSpace)) :
    (∃ e, (Create env d fs id parent (some ⟨[("size", RamBytes.ok v)], ml⟩)).err
        = some e ∧ e.isInvalidArgument = true) ∧
    (Create env d fs id parent (some ⟨[("size", RamBytes.ok v)], ml⟩)).fs.files
      = fs.files := by
  have hfiles := createStep_files env d (fs.addDir (joinPath d.home "subvolumes"))
    (joinPath d.home "subvolumes") id parent
  rw [FS.addDir_files] at hfiles
  unfold Create
  rcases hcs : createStep env d (fs.addDir (joinPath d.home "subvolumes"))
      (joinPath d.home "subvolumes") id parent with ⟨oe, fs1, tr⟩
  rw [hcs] at hstep hfiles
  simp only [] at hstep hfiles
  subst hstep
  simp only [List.lookup, beq_self_eq_true, parseStorageOpt_single_size]
  by_cases h0 : toUint64 v = 0
  · simp [setStorageSize, h0, hfiles, hcs, GoError.isInvalidArgument]
  · rcases hsize with h | ⟨hm, hlt⟩
    · exact absurd h h0
    · simp [setStorageSize, h0, hm, hlt, hfiles, hcs, GoError.isInvalidArgument]

theorem create_invalid_size_no_quota_record_witness :
    ((createStep envAllOK ⟨"h", 100, false, false⟩
        ((⟨[], []⟩ : FS).addDir (joinPath "h" "subvolumes"))
        (joinPath "h" "subvolumes") "i" "").1 = none) ∧
    (toUint64 0 = 0) ∧
    (∃ e, (Create envAllOK ⟨"h", 100, false, false⟩ ⟨[], []⟩ "i" ""
        (some ⟨[("size", RamBytes.ok 0)], ""⟩)).err = some e
      ∧ e.isInvalidArgument = true) ∧
    (Create envAllOK ⟨"h", 100, false, false⟩ ⟨[], []⟩ "i" ""
        (some ⟨[("size", RamBytes.ok 0)], ""⟩)).fs.files = [] :=
  ⟨by decide, by decide,
    (create_invalid_size_no_quota_record envAllOK ⟨"h", 100, false, false⟩
      ⟨[], []⟩ "i" "" "" 0 (by decide) (Or.inl (by decide))).1,
    (create_invalid_size_no_quota_record envAllOK ⟨"h", 100, false, false⟩
      ⟨[], []⟩ "i" "" "" 0 (by decide) (Or.inl (by decide))).2⟩

theorem createFinish_fs (env : Env) (d : Driver) (fs : FS) (p : String)
    (tr : List Event) : (createFinish env d fs p tr).fs = fs := by
  unfold createFinish
  split <;> rfl

theorem FS.isDir_addDir_self (fs : FS) (p : String) :
    (fs.addDir p).isDir p = true := by
  unfold FS.addDir
  split
  · assumption
  · simp [FS.isDir]

theorem FS.isDir_addDir_mono (fs : FS) (p x : String) (h : fs.isDir x = true) :
    (fs.addDir p).isDir x = true := by
  unfold FS.addDir
  split
  · exact h
  · simp only [FS.isDir, List.contains_cons]
    simp only [FS.isDir] at h
    simp at h
    simp [h]

theorem FS.isDir_writeFile (fs : FS) (p c x : String) :
    (fs.writeFile p c).isDir x = fs.isDir x := rfl

theorem create_err_of_step_err (env : Env) (d : Driver) (fs : FS)
    (id parent : String) (opts : Option CreateOpts) (e : GoError) (fs1 : FS)
    (tr : List Event)
    (hcs : createStep env d (fs.addDir (joinPath d.home "subvolumes"))
      (joinPath d.home "subvolumes") id parent = (some e, fs1, tr)) :
    Create env d fs id parent opts = ⟨some e, d, fs1, tr⟩ := by
  unfold Create
  simp only [hcs]

theorem create_fs_isDir_of_step (env : Env) (d : Driver) (fs : FS)
    (id parent : String) (opts : Option CreateOpts) (fs1 : FS) (tr : List Event)
    (hcs : createStep env d (fs.addDir (joinPath d.home "subvolumes"))
      (joinPath d.home "subvolumes") id parent = (none, fs1, tr))
    (x : String) (hx : fs1.isDir x = true) :
    (Create env d fs id parent opts).fs.isDir x = true := by
  unfold Create
  simp only [hcs]
  generalize (match opts with
    | some o => o.storageOpt
    | none => []) = so
  rcases hl : so.lookup "size" with _ | v <;> simp only [hl]
  · simp [createFinish_fs, hx]
  · rcases hp : parseStorageOpt so with e | size <;> simp only [hp]
    · exact hx
    · cases hre : (setStorageSize env d
          (joinPath (joinPath d.home "subvolumes") id) size).err with
      | some e =>
        simp only [hre]
        exact hx
      | none =>
        simp only [hre, createFinish_fs]
        rw [FS.isDir_writeFile]
        exact FS.isDir_addDir_mono _ _ _ hx

theorem create_tr_mem_of_step (env : Env) (d : Driver) (fs : FS)
    (id parent : String) (opts : Option CreateOpts) (fs1 : FS) (tr : List Event)
    (hcs : createStep env d (fs.addDir (joinPath d.home "subvolumes"))
      (joinPath d.home "subvolumes") id parent = (none, fs1, tr))
    (e : Event) (he : e ∈ tr) :
    e ∈ (Create env d fs id parent opts).tr := by
  unfold Create
  simp only [hcs]
  generalize (match opts with
    | some o => o.storageOpt
    | none => []) = so
  rcases hl : so.lookup "size" with _ | v <;> simp only [hl]
  · simp [createFinish_tr, he]
  · rcases hp : parseStorageOpt so with er | size <;> simp only [hp]
    · exact he
    · cases hre : (setStorageSize env d
          (joinPath (joinPath d.home "subvolumes") id) size).err with
      | some er =>
        simp only [hre]
        exact List.mem_append_left _ he
      | none =>
        simp only [hre, createFinish_tr]
        exact List.mem_append_left _ (List.mem_append_left _ he)

/-- C5: `Create(id, parent, opts)` issues a fresh subvolume-create inside
`home/subvolumes` when `parent` is empty, and otherwise — after verifying
that the parent's subvolume directory exists and is a directory — issues
a snapshot of the parent's subvolume with `id` as the target name; in
both success cases the new layer's directory appears at
`home/subvolumes/<id>`, and a missing or non-directory parent aborts with
the corresponding error before any snapshot is attempted. -/
theorem create_fresh_or_snapshot (env : Env) (d : Driver) (fs : FS)
    (id parent : String) (opts : Option CreateOpts) :
    (parent = "" → env.subvolCreateOK = true →
      Event.createIoctl (joinPath d.home "subvolumes") id
          ∈ (Create env d fs id parent opts).tr ∧
      (Create env d fs id parent opts).fs.isDir (d.subvolumesDirID id) = true) ∧
    (parent ≠ "" →
      (fs.addDir (joinPath d.home "subvolumes")).isDir (d.subvolumesDirID parent)
          = true →
      env.snapshotOK = true →
      Event.snapIoctl (d.subvolumesDirID parent) (joinPath d.home "subvolumes") id
          ∈ (Create env d fs id parent opts).tr ∧
      (Create env d fs id parent opts).fs.isDir (d.subvolumesDirID id) = true) ∧
    (parent ≠ "" →
      (fs.addDir (joinPath d.home "subvolumes")).pathExists
          (d.subvolumesDirID parent) = false →
      (Create env d fs id parent opts).err
          = some (.notExist (d.subvolumesDirID parent)) ∧
      (Create env d fs id parent opts).tr = []) ∧
    (parent ≠ "" →
      (fs.addDir (joinPath d.home "subvolumes")).pathExists
          (d.subvolumesDirID parent) = true →
      (fs.addDir (joinPath d.home "subvolumes")).isDir (d.subvolumesDirID parent)
          = false →
      (Create env d fs id parent opts).err
          = some (.notADirectory (d.subvolumesDirID parent)) ∧
      (Create env d fs id parent opts).tr = []) := by
  refine ⟨?_, ?_, ?_, ?_⟩
  · intro h1 h2
    have hcs : createStep env d (fs.addDir (joinPath d.home "subvolumes"))
        (joinPath d.home "subvolumes") id parent =
        (none, (fs.addDir (joinPath d.home "subvolumes")).addDir
          (joinPath (joinPath d.home "subvolumes") id),
          [.createIoctl (joinPath d.home "subvolumes") id]) := by
      simp [createStep, h1, h2]
    exact ⟨create_tr_mem_of_step env d fs id parent opts _ _ hcs _ (by simp),
      create_fs_isDir_of_step env d fs id parent opts _ _ hcs _
        (FS.isDir_addDir_self _ _)⟩
  · intro h1 h2 h3
    have hpe : (fs.addDir (joinPath d.home "subvolumes")).pathExists
        (d.subvolumesDirID parent) = true := by
      simp [FS.pathExists, h2]
    have hcs : createStep env d (fs.addDir (joinPath d.home "subvolumes"))
        (joinPath d.home "subvolumes") id parent =
        (none, (fs.addDir (joinPath d.home "subvolumes")).addDir
          (joinPath (joinPath d.home "subvolumes") id),
          [.snapIoctl (d.subvolumesDirID parent) (joinPath d.home "subvolumes") id]) := by
      simp [createStep, h1, h2, h3, hpe]
    exact ⟨create_tr_mem_of_step env d fs id parent opts _ _ hcs _ (by simp),
      create_fs_isDir_of_step env d fs id parent opts _ _ hcs _
        (FS.isDir_addDir_self _ _)⟩
  · intro h1 h2
    have hcs : createStep env d (fs.addDir (joinPath d.home "subvolumes"))
        (joinPath d.home "subvolumes") id parent =
        (some (.notExist (d.subvolumesDirID parent)),
          fs.addDir (joinPath d.home "subvolumes"), []) := by
      simp [createStep, h1, h2]
    rw [create_err_of_step_err env d fs id parent opts _ _ _ hcs]
    exact ⟨rfl, rfl⟩
  · intro h1 h2 h3
    have hcs : createStep env d (fs.addDir (joinPath d.home "subvolumes"))
        (joinPath d.home "subvolumes") id parent =
        (some (.notADirectory (d.subvolumesDirID parent)),
          fs.addDir (joinPath d.home "subvolumes"), []) := by
      simp [createStep, h1, h2, h3]
    rw [create_err_of_step_err env d fs id parent opts _ _ _ hcs]
    exact ⟨rfl, rfl⟩

theorem create_fresh_or_snapshot_witness :
    (Event.createIoctl "h/subvolumes" "i"
        ∈ (Create envAllOK ⟨"h", 0, false, false⟩ ⟨[], []⟩ "i" "" none).tr ∧
      (Create envAllOK ⟨"h", 0, false, false⟩ ⟨[], []⟩ "i" "" none).fs.isDir
        "h/subvolumes/i" = true) ∧
    (Event.snapIoctl "h/subvolumes/p" "h/subvolumes" "i"
        ∈ (Create envAllOK ⟨"h", 0, false, false⟩ ⟨["h/subvolumes/p"], []⟩
            "i" "p" none).tr ∧
      (Create envAllOK ⟨"h", 0, false, false⟩ ⟨["h/subvolumes/p"], []⟩
          "i" "p" none).fs.isDir "h/subvolumes/i" = true) :=
  ⟨(create_fresh_or_snapshot envAllOK ⟨"h", 0, false, false⟩ ⟨[], []⟩
      "i" "" none).1 rfl rfl,
    (create_fresh_or_snapshot envAllOK ⟨"h", 0, false, false⟩
      ⟨["h/subvolumes/p"], []⟩ "i" "p" none).2.1 (by decide) (by decide) rfl⟩

/-- C6 (counterexample): the copy loop of `subvolCreate` does not stay in
bounds for every name length: for a 4089-byte name it writes index 4088,
which is outside the `BTRFS_PATH_NAME_MAX + 1`-byte name buffer of
`struct btrfs_ioctl_vol_args` — the loop performs no truncation at all. -/
theorem subvol_create_name_copy_cex :
    ¬ ∀ (name : List UInt8), ∀ i ∈ subvolCreateNameWrites name,
        i < BTRFS_PATH_NAME_MAX + 1 := by
  intro h
  have h2 := h (List.replicate 4089 0) 4088
    (by
      unfold subvolCreateNameWrites
      rw [List.length_replicate]
      exact List.mem_range.mpr (by omega))
  exact absurd h2 (by decide)

/-- C6 (amended): only the snapshot binding truncates: the `snprintf`
copy of `set_name_btrfs_ioctl_vol_args_v2` silently truncates the name to
`BTRFS_SUBVOL_NAME_MAX - 1` bytes, copying it byte-for-byte up to that
bound and never writing outside the buffer; but the copy loop of
`subvolCreate` copies every byte position of the name without truncation,
so its writes stay within the request structure's name buffer if and only
if the name is at most `BTRFS_PATH_NAME_MAX + 1` bytes long — a longer
name makes the loop index run past the buffer bound (an out-of-bounds
index, a runtime panic in Go) instead of being truncated. -/
theorem name_copy_truncation_amended (name : List UInt8) :
    ((∀ i ∈ subvolCreateNameWrites name, i < BTRFS_PATH_NAME_MAX + 1) ↔
        name.length ≤ BTRFS_PATH_NAME_MAX + 1) ∧
    (∀ i ∈ subvolCreateNameWrites name, subvolCreateNameBuf name i = name.getD i 0) ∧
    ((set_name_btrfs_ioctl_vol_args_v2 name).length
        = min (BTRFS_SUBVOL_NAME_MAX - 1) name.length) ∧
    (∀ j : Nat, (set_name_btrfs_ioctl_vol_args_v2 name).getD j 0 =
        if j < BTRFS_SUBVOL_NAME_MAX - 1 then name.getD j 0 else 0) := by
  refine ⟨?_, fun i _ => rfl, List.length_take _ _, ?_⟩
  · simp only [subvolCreateNameWrites, List.mem_range]
    constructor
    · intro h
      by_contra hlen
      push_neg at hlen
      exact absurd (h (BTRFS_PATH_NAME_MAX + 1) hlen) (by omega)
    · intro h i hi
      omega
  · intro j
    unfold set_name_btrfs_ioctl_vol_args_v2
    by_cases hj : j < BTRFS_SUBVOL_NAME_MAX - 1
    · simp only [hj, if_true, ite_true]
      by_cases hjl : j < name.length
      · rw [List.getD_eq_getElem?_getD, List.getD_eq_getElem?_getD,
          List.getElem?_take_of_lt hj]
      · have h1 : name.length ≤ j := by omega
        have h2 : (name.take (BTRFS_SUBVOL_NAME_MAX - 1)).length ≤ j := by
          rw [List.length_take]
          omega
        rw [List.getD_eq_getElem?_getD, List.getD_eq_getElem?_getD,
          List.getElem?_eq_none h1, List.getElem?_eq_none h2]
    · simp only [hj, if_false, ite_false]
      have h2 : (name.take (BTRFS_SUBVOL_NAME_MAX - 1)).length ≤ j := by
        rw [List.length_take]
        omega
      rw [List.getD_eq_getElem?_getD, List.getElem?_eq_none h2]
      rfl

theorem name_copy_truncation_amended_witness :
    ((∀ i ∈ subvolCreateNameWrites (List.replicate 5000 (1 : UInt8)),
        i < BTRFS_PATH_NAME_MAX + 1) ↔ False) ∧
    (set_name_btrfs_ioctl_vol_args_v2 (List.replicate 5000 (1 : UInt8))).length
      = 4038 := by
  constructor
  · rw [(name_copy_truncation_amended (List.replicate 5000 1)).1,
      List.length_replicate]
    simp only [BTRFS_PATH_NAME_MAX, iff_false]
    omega
  · rw [(name_copy_truncation_amended (List.replicate 5000 1)).2.2.1,
      List.length_replicate]
    decide

/-- C7 (counterexample): the tri-state knowledge does not transition only
out of the unknown state: starting from a fresh driver, a failing status
probe moves it to probed-false, and a subsequent successful `enableQuota`
moves probed-false to probed-true — an operation-level transition whose
source state is neither the target state nor unknown. -/
theorem quota_tristate_transition_cex :
    ¬ (∀ (op : DOp) (s : Sys),
        (runOp op s).1.d.triState = s.d.triState ∨
        s.d.triState = QuotaKnowledge.unknown) := by
  intro h
  have h2 := h (.enable envAllOK)
    (runOp (.updStatus { envAllOK with qgroupStatusOK := false })
      ⟨⟨"h", 0, false, false⟩, ⟨[], []⟩⟩).1
  revert h2
  decide

/-- C7 (amended): over every operation sequence on one driver instance,
the tri-state transitions only as unknown→probed-false,
unknown→probed-true, or probed-false→probed-true (the last through a
successful explicit quota enable); the `quotaEnabled` flag, once true,
never becomes false again; and the status probe body executes at most
once per driver instance. -/
theorem quota_flag_monotone_probe_once :
    (∀ (op : DOp) (s : Sys), triStepOk s.d.triState ((runOp op s).1.d.triState)) ∧
    (∀ (ops : List DOp) (s : Sys),
      (s.d.quotaEnabled = true → (runOps ops s).1.d.quotaEnabled = true) ∧
      onceCount (runOps ops s).2 + pot (runOps ops s).1.d ≤ pot s.d ∧
      onceCount (runOps ops s).2 ≤ 1) := by
  constructor
  · intro op s
    exact triStep_of_dstep (runOp_dstep op s)
  · intro ops s
    obtain ⟨q, o, c⟩ := runOps_dstep ops s
    have hp := pot_le_one s.d
    exact ⟨q, c, by omega⟩

theorem quota_flag_monotone_probe_once_witness :
    ((⟨⟨"h", 0, true, true⟩, ⟨[], []⟩⟩ : Sys).d.quotaEnabled = true) ∧
    (runOps [.enable envAllOK, .updStatus envAllOK]
        ⟨⟨"h", 0, true, true⟩, ⟨[], []⟩⟩).1.d.quotaEnabled = true ∧
    onceCount (runOps [.enable envAllOK, .updStatus envAllOK]
        ⟨⟨"h", 0, true, true⟩, ⟨[], []⟩⟩).2 ≤ 1 :=
  ⟨rfl,
    (quota_flag_monotone_probe_once.2 [.enable envAllOK, .updStatus envAllOK]
      ⟨⟨"h", 0, true, true⟩, ⟨[], []⟩⟩).1 rfl,
    (quota_flag_monotone_probe_once.2 [.enable envAllOK, .updStatus envAllOK]
      ⟨⟨"h", 0, true, true⟩, ⟨[], []⟩⟩).2.2⟩

end Btrfs
